import Mathlib

/-
Verification of the ol-data-pipelines repository core:
  - src/ol_data_pipelines/edx/api_client.py   (OAuth token + paginated course fetch)
  - src/ol_data_pipelines/mitx_bigquery/solids.py (dataset extraction loop)

The HTTP layer is embedded as explicit request/response values: the network is a
scripted environment (one fixed response per deterministic endpoint, a list of
successive responses for the stateful paginated list endpoint), and every
function returns both its result and the ordered trace of requests it issued.
-/

/-- Error values raised by the client code: an HTTP status failure raised by
raise_for_status, a missing JSON key (Python KeyError), or a value of the wrong
shape (Python TypeError). -/
inductive ApiError where
  | httpStatus (status : Nat)
  | keyError (key : String)
  | typeError

deriving DecidableEq, Repr

/-- JSON values as delivered by response.json(). -/
inductive Json where
  | null
  | str (s : String)
  | num (n : Int)
  | arr (elems : List Json)
  | obj (fields : List (String × Json))

/-- Python subscript lookup j[key]: raises KeyError when the key is absent and
TypeError when the value is not an object. -/
def Json.get (j : Json) (key : String) : Except ApiError Json :=
  match j with
  | .obj fields =>
    match fields.lookup key with
    | some v => .ok v
    | none => .error (.keyError key)
  | _ => .error .typeError

/-- Python dict.get(key): None (here: none) when the key is absent. -/
def Json.getOpt (j : Json) (key : String) : Option Json :=
  match j with
  | .obj fields => fields.lookup key
  | _ => none

/-- Python truthiness of a JSON value. -/
def Json.truthy : Json → Bool
  | .null => false
  | .str s => !(s == "")
  | .num n => !(n == 0)
  | .arr elems => !elems.isEmpty
  | .obj fields => !fields.isEmpty

/-- Truthiness of an optional JSON value; dict.get returning None is falsy. -/
def truthy_opt : Option Json → Bool
  | none => false
  | some j => j.truthy

/-- Python requires a string where one is expected (TypeError otherwise). -/
def Json.asString : Json → Except ApiError String
  | .str s => .ok s
  | _ => .error .typeError

/-- An HTTP response: status code plus parsed JSON body. -/
structure Response where
  status_code : Nat
  body : Json

/-- httpx Response.raise_for_status: raises HTTPStatusError exactly on a
4xx or 5xx status code. -/
def raise_for_status (r : Response) : Except ApiError Unit :=
  if 400 ≤ r.status_code ∧ r.status_code ≤ 599 then
    .error (.httpStatus r.status_code)
  else
    .ok ()

/-- An HTTP request as constructed by the client code: method, URL, form
payload or headers and query parameters. -/
inductive Request where
  | post (url : String) (payload : List (String × String))
  | get (url : String) (headers : List (String × String)) (params : List (String × String))

deriving DecidableEq, Repr

/-- The scripted network environment for the edX client: the token and identity
endpoints are deterministic (same response every call); the paginated list
endpoint is stateful, handing out successive responses to successive requests. -/
structure EdxNet where
  token_response : Response
  me_response : Response
  course_responses : List Response

/-- The POST request built by get_access_token. -/
def token_request (edx_url client_id client_secret token_type : String) : Request :=
  .post (edx_url ++ "/oauth2/access_token")
    [("grant_type", "client_credentials"), ("client_id", client_id),
     ("client_secret", client_secret), ("token_type", token_type)]

/-- get_access_token from api_client.py: POST the client-credentials payload to
the token endpoint, raise on HTTP error status, return the access_token field
of the JSON body. Returns the result together with the request trace. -/
def get_access_token (net : EdxNet) (client_id client_secret edx_url token_type : String) :
    Except ApiError Json × List Request :=
  let req := token_request edx_url client_id client_secret token_type
  let response := net.token_response
  (do
    let _ ← raise_for_status response
    response.body.get "access_token", [req])

/-- The GET request built by _get_username. -/
def me_request (edx_url access_token : String) : Request :=
  .get (edx_url ++ "/api/user/v1/me")
    [("Authorization", "JWT " ++ access_token)] []

/-- The body of _get_username after the request is issued: raise on error
status, then return json()["username"] (which must be a string to be usable as
a query parameter downstream). -/
def resolve_username (me : Response) : Except ApiError String := do
  let _ ← raise_for_status me
  let u ← me.body.get "username"
  u.asString

/-- The GET request built inside _fetch_with_auth for the course list. -/
def course_request (edx_url access_token username : String) : Request :=
  .get (edx_url ++ "/api/courses/v1/courses/")
    [("Authorization", "JWT " ++ access_token)]
    [("username", username)]

/-- Result of one _fetch_with_auth call: the parsed body (or the error raised)
plus the ordered requests issued during the call. -/
structure FetchResult where
  result : Except ApiError Json
  requests : List Request

/-- One call of _fetch_with_auth from api_client.py: resolve the username via
the identity endpoint, then GET the course list endpoint with that username as
query parameter, raise on error status, and return the parsed JSON body.
The page argument is the scripted response to this call's list request. -/
def fetch_with_auth (me page : Response) (edx_url access_token : String) : FetchResult :=
  match resolve_username me with
  | .error e => ⟨.error e, [me_request edx_url access_token]⟩
  | .ok username =>
    let req := course_request edx_url access_token username
    match raise_for_status page with
    | .error e => ⟨.error e, [me_request edx_url access_token, req]⟩
    | .ok _ => ⟨.ok page.body, [me_request edx_url access_token, req]⟩

/-- Full consumption of the generator returned by get_edx_course_ids: the
sequence of yielded results arrays, the ordered request trace, the exception
escaping the generator (if any), and a model flag marking that the scripted
response list ran out while the loop still wanted another page. -/
structure GenResult where
  yields : List Json
  requests : List Request
  error : Option ApiError
  exhausted : Bool

/-- The while-next_page loop of get_edx_course_ids: while the cursor is truthy,
re-issue the fetch (identical parameters), read the new cursor from
pagination.get("next"), and yield the results array. -/
def course_ids_loop (me : Response) (edx_url access_token : String) :
    Option Json → List Response → GenResult
  | next_page, pages =>
    if truthy_opt next_page then
      match pages with
      | [] => ⟨[], [], none, true⟩
      | page :: rest =>
        match fetch_with_auth me page edx_url access_token with
        | ⟨.error e, reqs⟩ => ⟨[], reqs, some e, false⟩
        | ⟨.ok response_data, reqs⟩ =>
          match response_data.get "pagination" with
          | .error e => ⟨[], reqs, some e, false⟩
          | .ok pagination =>
            let np := pagination.getOpt "next"
            match response_data.get "results" with
            | .error e => ⟨[], reqs, some e, false⟩
            | .ok results =>
              let tail := course_ids_loop me edx_url access_token np rest
              ⟨results :: tail.yields, reqs ++ tail.requests, tail.error, tail.exhausted⟩
    else ⟨[], [], none, false⟩

/-- get_edx_course_ids from api_client.py, fully consumed: the first fetch
reads results then the pagination cursor and yields, then the while loop runs
until the cursor is falsy. -/
def get_edx_course_ids (net : EdxNet) (edx_url access_token : String) : GenResult :=
  match net.course_responses with
  | [] => ⟨[], [], none, true⟩
  | page :: rest =>
    match fetch_with_auth net.me_response page edx_url access_token with
    | ⟨.error e, reqs⟩ => ⟨[], reqs, some e, false⟩
    | ⟨.ok response_data, reqs⟩ =>
      match response_data.get "results" with
      | .error e => ⟨[], reqs, some e, false⟩
      | .ok course_data =>
        match response_data.get "pagination" with
        | .error e => ⟨[], reqs, some e, false⟩
        | .ok pagination =>
          let next_page := pagination.getOpt "next"
          let tail := course_ids_loop net.me_response edx_url access_token next_page rest
          ⟨course_data :: tail.yields, reqs ++ tail.requests, tail.error, tail.exhausted⟩

/-
Embedding of src/ol_data_pipelines/mitx_bigquery/solids.py.

Timestamps are integers measured in days, so that datetime arithmetic with
timedelta(days = n) becomes integer subtraction. The BigQuery resource is a
project name plus a partial map from fully-qualified table names to tables;
a missing entry is the NotFound exception of the client library. The
object-storage side is a write log of (path, contents) pairs; contents are
the projected rows handed to the parquet writer.
-/

/-- One column of a BigQuery table schema; only the name takes part in the
projection logic. -/
structure SchemaField where
  name : String

deriving DecidableEq, Repr

/-- A row as returned by list_rows: an association of column name to cell
value (cell values are opaque strings here). -/
abbrev Row := List (String × String)

/-- A BigQuery table: its schema, its last-modified timestamp (in days), and
its rows. -/
structure BigQueryTable where
  schema : List SchemaField
  modified : Int
  rows : List Row

deriving DecidableEq, Repr

/-- A dataset list item: carries the dataset identifier. -/
structure Dataset where
  dataset_id : String

deriving DecidableEq, Repr

/-- The bigquery_db resource: the configured project and the warehouse tables,
keyed by fully-qualified name; none is the NotFound signal of get_table. -/
structure BigQueryDB where
  project : String
  tables : String → Option BigQueryTable

/-- The desired field names fixed in download_user_data. -/
def fields : List String :=
  ["user_id", "username", "email", "is_staff", "profile_name", "profile_meta",
   "enrollment_course_id"]

/-- The fully-qualified table name built in the loop body:
project.dataset_id.user_info_combo. -/
def table_name (project : String) (dataset : Dataset) : String :=
  project ++ "." ++ dataset.dataset_id ++ ".user_info_combo"

/-- The schema projection in the loop body: the table columns whose name is
among the desired fields. -/
def desired_schema (bigquery_table : BigQueryTable) : List SchemaField :=
  bigquery_table.schema.filter (fun column => fields.contains column.name)

/-- Projection of one row to the selected fields, as list_rows with
selected_fields returns it. -/
def project_row (selected_fields : List SchemaField) (r : Row) : Row :=
  r.filter (fun cell => selected_fields.any (fun column => column.name == cell.1))

/-- list_rows with selected_fields: every table row, projected; the row count
(total_rows) is the length of this list. -/
def list_rows (bigquery_table : BigQueryTable) (selected_fields : List SchemaField) :
    List Row :=
  bigquery_table.rows.map (project_row selected_fields)

/-- os.path.join for the two-argument form used in the loop body: an absolute
second component (leading slash) replaces the first, an empty first component
contributes nothing, and otherwise a single separator joins the two (no extra
separator when the first already ends with one). -/
def path_join (a b : String) : String :=
  if b.data.head? == some '/' then b
  else if a == "" then b
  else if a.endsWith "/" then a ++ b
  else a ++ "/" ++ b

/-- The output file path for one dataset:
join(output_folder, user_info_combo_<dataset_id>.parquet). -/
def dataset_file_path (output_folder : String) (dataset : Dataset) : String :=
  path_join output_folder ("user_info_combo_" ++ dataset.dataset_id ++ ".parquet")

/-- An event yielded by the download_user_data solid: an AssetMaterialization
(asset key, updated_file path, updated_rows count) or the terminal Output
(the user_query_folder path). -/
inductive Event where
  | materialization (asset_key : String) (updated_file : String) (updated_rows : Nat)
  | output (user_query_folder : String)

deriving DecidableEq, Repr

/-- Whether an event is an AssetMaterialization. -/
def Event.isMaterialization : Event → Bool
  | .materialization .. => true
  | .output _ => false

/-- Whether an event is an AssetMaterialization with the given asset key. -/
def Event.isMaterializationFor (asset_key : String) : Event → Bool
  | .materialization k _ _ => k == asset_key
  | .output _ => false

/-- One iteration of the loop in download_user_data for a single dataset:
look up the user_info_combo table (NotFound skips), project the schema, and
when the table is strictly newer than modified_minimum, write the projected
rows to the dataset's parquet path and yield one materialization. Returns the
events yielded and the (path, contents) writes performed. -/
def process_dataset (db : BigQueryDB) (modified_minimum : Int) (output_folder : String)
    (dataset : Dataset) : List Event × List (String × List Row) :=
  match db.tables (table_name db.project dataset) with
  | none => ([], [])
  | some bigquery_table =>
    let selected := desired_schema bigquery_table
    if modified_minimum < bigquery_table.modified then
      let rows := list_rows bigquery_table selected
      let file_path := dataset_file_path output_folder dataset
      ([Event.materialization dataset.dataset_id file_path rows.length],
       [(file_path, rows)])
    else ([], [])

/-- The dataset loop of download_user_data, accumulating yielded events and
file writes in order. -/
def download_loop (db : BigQueryDB) (modified_minimum : Int) (output_folder : String) :
    List Dataset → List Event × List (String × List Row)
  | [] => ([], [])
  | dataset :: rest =>
    let head := process_dataset db modified_minimum output_folder dataset
    let tail := download_loop db modified_minimum output_folder rest
    (head.1 ++ tail.1, head.2 ++ tail.2)

/-- Result of one run of the download_user_data solid: the events it yielded
(materializations then the terminal Output) and the file writes it performed. -/
structure RunResult where
  events : List Event
  writes : List (String × List Row)

deriving DecidableEq, Repr

/-- download_user_data from solids.py: modified_minimum is now minus the
configured last_modified_days; each dataset is processed in order; the
terminal Output carrying the output folder is yielded last. -/
def download_user_data (db : BigQueryDB) (now : Int) (last_modified_days : Int)
    (output_folder : String) (datasets : List Dataset) : RunResult :=
  let modified_minimum := now - last_modified_days
  let loop := download_loop db modified_minimum output_folder datasets
  ⟨loop.1 ++ [Event.output output_folder], loop.2⟩

/-- get_datasets from solids.py: list the datasets of the bigquery_db resource
(the argument is that listing, or the error it raises) and keep those whose
identifier ends with the suffix marking the latest course run. -/
def get_datasets (listing : Except String (List Dataset)) :
    Except String (List Dataset) := do
  let datasets ← listing
  pure (datasets.filter (fun dataset => dataset.dataset_id.endsWith "_latest"))

/-- A filesystem snapshot: contents (projected rows) per path. -/
def FileSystem : Type := String → Option (List Row)

/-- One overwriting file write. -/
def fs_write (fs : FileSystem) (w : String × List Row) : FileSystem :=
  fun p => if p == w.1 then some w.2 else fs p

/-- Apply a run's write log, in order, to a filesystem snapshot; every write
fully overwrites the file at its path. -/
def fs_apply (fs : FileSystem) : List (String × List Row) → FileSystem
  | [] => fs
  | w :: ws => fs_apply (fs_write fs w) ws

/-
Helper lemmas shared by the claim theorems.
-/

/-- Last-writer-wins view of a write log: the content the log itself assigns
to a path, later writes shadowing earlier ones. -/
def writes_lookup : List (String × List Row) → String → Option (List Row)
  | [], _ => none
  | w :: ws, p =>
    match writes_lookup ws p with
    | some c => some c
    | none => if p == w.1 then some w.2 else none

/-- Identity response used by the concrete scenarios. -/
def sample_me_response : Response := ⟨200, .obj [("username", .str "staff")]⟩

/-- A successful course-list page response with the given results array and
pagination object. -/
def page_response (results : List Json) (pagination : List (String × Json)) : Response :=
  ⟨200, .obj [("results", .arr results), ("pagination", .obj pagination)]⟩

/-- A three-page server sequence: page 1 carries cursor next = "X", pages 2
and 3 carry no cursor. -/
def edx_net_three : EdxNet :=
  ⟨⟨200, .obj [("access_token", .str "tok")]⟩, sample_me_response,
   [page_response [.str "course-v1:a"] [("next", .str "X")],
    page_response [.str "course-v1:b"] [],
    page_response [.str "course-v1:c"] []]⟩

/-- The materialization events carrying the given asset key. -/
def mats_for (asset_key : String) (events : List Event) : List Event :=
  events.filter (Event.isMaterializationFor asset_key)

/-- The file writes landing at the given path. -/
def writes_at (p : String) (writes : List (String × List Row)) : List (String × List Row) :=
  writes.filter (fun w => w.1 == p)

/-- A concrete user_info_combo table: three columns (one of them undesired),
modified at time 100, two rows. -/
def sample_table : BigQueryTable :=
  ⟨[⟨"user_id"⟩, ⟨"email"⟩, ⟨"secret_col"⟩], 100,
   [[("user_id", "1"), ("email", "a@example.com"), ("secret_col", "x")],
    [("user_id", "2"), ("email", "b@example.com"), ("secret_col", "y")]]⟩

/-- A concrete warehouse: run2_latest has a user_info_combo table, run1_latest
does not. -/
def sample_db : BigQueryDB :=
  ⟨"proj", fun n => if n == "proj.run2_latest.user_info_combo" then some sample_table else none⟩

/-- The dataset list fed to the concrete runs. -/
def sample_datasets : List Dataset := [⟨"run1_latest"⟩, ⟨"run2_latest"⟩]

deriving instance DecidableEq for Except

/-- A token endpoint answering 401. -/
def edx_net_unauthorized : EdxNet := ⟨⟨401, .obj []⟩, sample_me_response, []⟩

/-- A token endpoint answering 200 with an access_token field. -/
def edx_net_token_ok : EdxNet :=
  ⟨⟨200, .obj [("access_token", .str "tok")]⟩, sample_me_response, []⟩

/-- Cancel a common appended suffix of two strings. -/
theorem string_append_cancel_right {a b c : String} (h : a ++ c = b ++ c) : a = b := by
  apply String.ext
  have hd : (a ++ c).data = (b ++ c).data := congrArg String.data h
  simp only [String.data_append] at hd
  exact List.append_cancel_right hd

/-- Cancel a common prepended prefix of two strings. -/
theorem string_append_cancel_left {a b c : String} (h : a ++ b = a ++ c) : b = c := by
  apply String.ext
  have hd : (a ++ b).data = (a ++ c).data := congrArg String.data h
  simp only [String.data_append] at hd
  exact List.append_cancel_left hd

/-- The per-dataset file names are distinct for distinct dataset identifiers. -/
theorem file_name_inj {s1 s2 : String}
    (h : "user_info_combo_" ++ s1 ++ ".parquet" = "user_info_combo_" ++ s2 ++ ".parquet") :
    s1 = s2 :=
  string_append_cancel_left (string_append_cancel_right h)

/-- The per-dataset file name never starts with a path separator. -/
theorem file_name_head (s : String) :
    ("user_info_combo_" ++ s ++ ".parquet").data.head? = some 'u' := by
  have h1 : ("user_info_combo_" ++ s ++ ".parquet").data
      = "user_info_combo_".data ++ (s.data ++ ".parquet".data) := by
    simp [String.data_append]
  rw [h1]
  rfl

/-- Distinct dataset identifiers produce distinct output file paths under the
same output folder. -/
theorem dataset_file_path_inj {output_folder : String} {d1 d2 : Dataset}
    (h : dataset_file_path output_folder d1 = dataset_file_path output_folder d2) :
    d1.dataset_id = d2.dataset_id := by
  unfold dataset_file_path path_join at h
  rw [file_name_head d1.dataset_id, file_name_head d2.dataset_id] at h
  have hu : (some 'u' == some '/') = false := rfl
  rw [hu] at h
  simp only [Bool.false_eq_true, if_false] at h
  by_cases he : output_folder == ""
  · rw [if_pos he, if_pos he] at h
    exact file_name_inj h
  · rw [if_neg he, if_neg he] at h
    by_cases hs : output_folder.endsWith "/"
    · rw [if_pos hs, if_pos hs] at h
      exact file_name_inj (string_append_cancel_left h)
    · rw [if_neg hs, if_neg hs] at h
      exact file_name_inj (string_append_cancel_left h)

/-- Applying a write log reads back as: the log's own last write at the path
if any, the prior filesystem content otherwise. -/
theorem fs_apply_lookup (ws : List (String × List Row)) :
    ∀ (fs : FileSystem) (p : String),
      fs_apply fs ws p = (writes_lookup ws p).or (fs p) := by
  induction ws with
  | nil => intro fs p; rfl
  | cons w ws ih =>
    intro fs p
    show fs_apply (fs_write fs w) ws p = _
    rw [ih]
    cases h : writes_lookup ws p with
    | some c => simp [writes_lookup, h]
    | none =>
      simp only [writes_lookup, h, Option.none_or]
      by_cases hp : p == w.1
      · simp [fs_write, hp]
      · simp [fs_write, hp]

/-- Re-applying the same write log leaves the filesystem unchanged: every
write fully overwrites its path, so nothing accumulates. -/
theorem fs_apply_self (ws : List (String × List Row)) (fs : FileSystem) :
    fs_apply (fs_apply fs ws) ws = fs_apply fs ws := by
  funext p
  rw [fs_apply_lookup, fs_apply_lookup]
  cases h : writes_lookup ws p <;> simp [h]

/-- All events produced by the dataset loop are materializations. -/
theorem download_loop_events_mat (db : BigQueryDB) (mm : Int) (folder : String)
    (l : List Dataset) :
    ∀ e ∈ (download_loop db mm folder l).1, e.isMaterialization = true := by
  induction l with
  | nil => intro e he; simp [download_loop] at he
  | cons x rest ih =>
    intro e he
    rcases List.mem_append.mp he with h | h
    · unfold process_dataset at h
      split at h
      · simp at h
      · split at h
        · simp at h
          rw [h]
          rfl
        · simp at h
    · exact ih e h

/-- C7: running download_user_data twice against identical warehouse state is
idempotent at the file level: the second run produces the same write log
(download_user_data is a function of the warehouse state and configuration),
and re-applying that log to the filesystem left by the first run changes
nothing, because each eligible dataset's file is fully overwritten at its
deterministic path — no rows are appended or accumulated across runs. -/
theorem download_user_data_idempotent (db : BigQueryDB) (now last_modified_days : Int)
    (output_folder : String) (datasets : List Dataset) (fs0 : FileSystem) :
    fs_apply
        (fs_apply fs0 (download_user_data db now last_modified_days output_folder datasets).writes)
        (download_user_data db now last_modified_days output_folder datasets).writes
      = fs_apply fs0 (download_user_data db now last_modified_days output_folder datasets).writes :=
  fs_apply_self _ _

/-- C8: get_datasets keeps exactly the datasets whose identifier ends with the
fixed suffix _latest, in the order the warehouse enumeration produced them
(the result is a sublist of the listing), and propagates an underlying listing
failure unchanged. -/
theorem get_datasets_spec :
    (∀ l : List Dataset,
      get_datasets (Except.ok l)
          = Except.ok (l.filter (fun dataset => dataset.dataset_id.endsWith "_latest"))
        ∧ (∀ d, d ∈ l.filter (fun dataset => dataset.dataset_id.endsWith "_latest") ↔
            d ∈ l ∧ d.dataset_id.endsWith "_latest" = true)
        ∧ (l.filter (fun dataset => dataset.dataset_id.endsWith "_latest")).Sublist l)
    ∧ (∀ e : String, get_datasets (Except.error e) = Except.error e) := by
  refine ⟨fun l => ⟨rfl, fun d => ?_, List.filter_sublist l⟩, fun e => rfl⟩
  exact List.mem_filter

/-- C9: for a table whose metadata is found, the schema projection applied by
download_user_data keeps exactly the table columns whose name is one of the
seven desired fields, preserving schema order; a desired field absent from the
table schema is simply absent from the projection, and the projection is a
total function (no error path). -/
theorem desired_schema_spec (t : BigQueryTable) :
    (∀ c, c ∈ desired_schema t ↔ c ∈ t.schema ∧ c.name ∈ fields)
    ∧ (desired_schema t).Sublist t.schema
    ∧ (∀ nm, (∀ c ∈ t.schema, c.name ≠ nm) → ∀ c ∈ desired_schema t, c.name ≠ nm) := by
  have hmem : ∀ c, c ∈ desired_schema t ↔ c ∈ t.schema ∧ c.name ∈ fields := by
    intro c
    unfold desired_schema
    rw [List.mem_filter]
    constructor
    · rintro ⟨h1, h2⟩
      exact ⟨h1, by simpa using h2⟩
    · rintro ⟨h1, h2⟩
      exact ⟨h1, by simpa using h2⟩
  refine ⟨hmem, List.filter_sublist _, ?_⟩
  intro nm habs c hc
  exact habs c ((hmem c).mp hc).1

/-- C10: every run of download_user_data yields all its per-dataset
materialization records first and the terminal Output carrying the output
folder exactly once, as the final yielded element — also for the empty dataset
list. -/
theorem download_user_data_events_order (db : BigQueryDB) (now last_modified_days : Int)
    (output_folder : String) (datasets : List Dataset) :
    (download_user_data db now last_modified_days output_folder datasets).events.filter
        (fun e => !e.isMaterialization) = [Event.output output_folder]
    ∧ ∃ ms, (download_user_data db now last_modified_days output_folder datasets).events
        = ms ++ [Event.output output_folder]
      ∧ (∀ e ∈ ms, e.isMaterialization = true) := by
  refine ⟨?_, (download_loop db (now - last_modified_days) output_folder datasets).1, rfl,
    download_loop_events_mat db _ output_folder datasets⟩
  show ((download_loop db (now - last_modified_days) output_folder datasets).1
      ++ [Event.output output_folder]).filter (fun e => !e.isMaterialization)
      = [Event.output output_folder]
  rw [List.filter_append]
  have h1 : (download_loop db (now - last_modified_days) output_folder datasets).1.filter
      (fun e => !e.isMaterialization) = [] := by
    rw [List.filter_eq_nil_iff]
    intro e he
    simp [download_loop_events_mat db _ output_folder datasets e he]
  rw [h1]
  rfl

/-- C6: a token-endpoint response with a 4xx or 5xx status makes
get_access_token raise the HTTP failure, having performed exactly the one
token request and no further network calls; a success (2xx) response makes it
return the access_token field of the JSON body, again after exactly one
request. -/
theorem get_access_token_spec (net : EdxNet) (client_id client_secret edx_url token_type : String) :
    ((400 ≤ net.token_response.status_code ∧ net.token_response.status_code ≤ 599) →
      (get_access_token net client_id client_secret edx_url token_type).1
          = Except.error (ApiError.httpStatus net.token_response.status_code)
        ∧ (get_access_token net client_id client_secret edx_url token_type).2
          = [token_request edx_url client_id client_secret token_type])
    ∧ (∀ tok, 200 ≤ net.token_response.status_code → net.token_response.status_code < 300 →
        net.token_response.body.get "access_token" = Except.ok tok →
        (get_access_token net client_id client_secret edx_url token_type).1 = Except.ok tok
        ∧ (get_access_token net client_id client_secret edx_url token_type).2
          = [token_request edx_url client_id client_secret token_type]) := by
  constructor
  · intro h
    simp [get_access_token, raise_for_status, h.1, h.2]
    rfl
  · intro tok h2 h3 hget
    have hne : ¬(400 ≤ net.token_response.status_code ∧ net.token_response.status_code ≤ 599) := by
      omega
    simp [get_access_token, raise_for_status, hne, hget]
    rfl

/-- With a working identity endpoint, one fetch returns the page body and
issues exactly the identity request followed by the fixed course-list
request. -/
theorem fetch_with_auth_ok {me page : Response} {edx_url access_token u : String}
    (hme : resolve_username me = Except.ok u)
    (hs : raise_for_status page = Except.ok ()) :
    fetch_with_auth me page edx_url access_token
      = ⟨Except.ok page.body,
         [me_request edx_url access_token, course_request edx_url access_token u]⟩ := by
  unfold fetch_with_auth
  rw [hme, hs]

/-- With a working identity endpoint, every fetch issues exactly one identity
request followed by one course-list request, whatever the page status. -/
theorem fetch_with_auth_requests {me page : Response} {edx_url access_token u : String}
    (hme : resolve_username me = Except.ok u) :
    (fetch_with_auth me page edx_url access_token).requests
      = [me_request edx_url access_token, course_request edx_url access_token u] := by
  unfold fetch_with_auth
  rw [hme]
  cases raise_for_status page <;> rfl

/-- C2 counterexample: for the three-page server sequence (page 1 cursor "X",
pages 2 and 3 cursor absent), full consumption of get_edx_course_ids yields 2
elements, not the 3 the claim predicts. -/
theorem get_edx_course_ids_not_all_pages :
    (get_edx_course_ids edx_net_three "https://lms.example.com" "tok").yields.length = 2
    ∧ ¬ (get_edx_course_ids edx_net_three "https://lms.example.com" "tok").yields.length = 3 := by
  constructor
  · rfl
  · intro h
    have h2 : (get_edx_course_ids edx_net_three "https://lms.example.com" "tok").yields.length
        = 2 := rfl
    omega

/-- C2 amended: when page 1 carries a truthy cursor and page 2 a falsy one,
full consumption yields exactly the two results arrays of pages 1 and 2 and
issues no request beyond the second page fetch — the pages after the first
falsy cursor are never requested, whatever they contain. -/
theorem get_edx_course_ids_stops_after_first_falsy (net : EdxNet)
    (edx_url access_token u : String) (p1 p2 : Response) (rest : List Response)
    (r1 pag1 r2 pag2 : Json)
    (hpages : net.course_responses = p1 :: p2 :: rest)
    (hme : resolve_username net.me_response = Except.ok u)
    (h1s : raise_for_status p1 = Except.ok ())
    (h1r : p1.body.get "results" = Except.ok r1)
    (h1p : p1.body.get "pagination" = Except.ok pag1)
    (h1n : truthy_opt (pag1.getOpt "next") = true)
    (h2s : raise_for_status p2 = Except.ok ())
    (h2r : p2.body.get "results" = Except.ok r2)
    (h2p : p2.body.get "pagination" = Except.ok pag2)
    (h2n : truthy_opt (pag2.getOpt "next") = false) :
    get_edx_course_ids net edx_url access_token
      = ⟨[r1, r2],
         [me_request edx_url access_token, course_request edx_url access_token u,
          me_request edx_url access_token, course_request edx_url access_token u],
         none, false⟩ := by
  unfold get_edx_course_ids
  rw [hpages]
  dsimp only
  rw [fetch_with_auth_ok hme h1s]
  dsimp only
  simp only [h1r, h1p]
  rw [course_ids_loop.eq_def]
  simp only [h1n, if_true]
  rw [fetch_with_auth_ok hme h2s]
  simp only [h2p, h2r]
  rw [course_ids_loop.eq_def]
  simp only [h2n]
  rfl

/-- Every request issued by the pagination loop is the fixed identity request
or the fixed course-list request, whatever cursor values the server returns. -/
theorem course_ids_loop_requests (me : Response) (edx_url access_token u : String)
    (hme : resolve_username me = Except.ok u) :
    ∀ (pages : List Response) (np : Option Json) (req : Request),
      req ∈ (course_ids_loop me edx_url access_token np pages).requests →
      req = me_request edx_url access_token ∨ req = course_request edx_url access_token u := by
  intro pages
  induction pages with
  | nil =>
    intro np req h
    rw [course_ids_loop.eq_def] at h
    by_cases hnp : truthy_opt np = true <;> simp [hnp] at h
  | cons page rest ih =>
    intro np req h
    rw [course_ids_loop.eq_def] at h
    by_cases hnp : truthy_opt np = true
    · simp only [hnp, if_true] at h
      have hreqs := @fetch_with_auth_requests _ page edx_url access_token _ hme
      split at h
      · rename_i e reqs heq
        have : reqs = [me_request edx_url access_token, course_request edx_url access_token u] := by
          rw [← hreqs, heq]
        rw [this] at h
        simpa using h
      · rename_i response_data reqs heq
        have hr : reqs = [me_request edx_url access_token, course_request edx_url access_token u] := by
          rw [← hreqs, heq]
        split at h
        · rw [hr] at h
          simpa using h
        · split at h
          · rw [hr] at h
            simpa using h
          · rw [hr] at h
            rcases List.mem_append.mp h with h1 | h1
            · simpa using h1
            · exact ih _ req h1
    · simp only [eq_false_of_ne_true hnp, if_false] at h
      simp at h

/-- Every request issued during any full consumption of get_edx_course_ids is
the fixed identity request or the fixed course-list request. -/
theorem get_edx_course_ids_requests_mem (net : EdxNet) (edx_url access_token u : String)
    (hme : resolve_username net.me_response = Except.ok u) :
    ∀ req ∈ (get_edx_course_ids net edx_url access_token).requests,
      req = me_request edx_url access_token ∨ req = course_request edx_url access_token u := by
  intro req h
  unfold get_edx_course_ids at h
  split at h
  · simp at h
  · rename_i page rest hcr
    have hreqs := @fetch_with_auth_requests _ page edx_url access_token _ hme
    split at h
    · rename_i e reqs heqf
      have hr : reqs = [me_request edx_url access_token, course_request edx_url access_token u] := by
        rw [← hreqs, heqf]
      rw [hr] at h
      simpa using h
    · rename_i response_data reqs heqf
      have hr : reqs = [me_request edx_url access_token, course_request edx_url access_token u] := by
        rw [← hreqs, heqf]
      split at h
      · rw [hr] at h
        simpa using h
      · split at h
        · rw [hr] at h
          simpa using h
        · rw [hr] at h
          rcases List.mem_append.mp h with h1 | h1
          · simpa using h1
          · exact course_ids_loop_requests net.me_response edx_url access_token u hme rest _ req h1

/-- C3: during any consumption of get_edx_course_ids, every page request is
byte-identical to the first one — the fixed course-list request built from the
URL, the token header and the username — so the cursor returned by the server
is read to decide termination but never parameterizes any request. -/
theorem get_edx_course_ids_requests_fixed (net : EdxNet) (edx_url access_token u : String)
    (hme : resolve_username net.me_response = Except.ok u) :
    (get_edx_course_ids net edx_url access_token).requests.all
      (fun req => req == me_request edx_url access_token
        || req == course_request edx_url access_token u) = true := by
  rw [List.all_eq_true]
  intro req hreq
  rcases get_edx_course_ids_requests_mem net edx_url access_token u hme req hreq with h | h <;>
    simp [h]

/-- The identity request and the course-list request are distinct (they have
different URLs and different query parameters). -/
theorem me_request_ne_course_request (edx_url access_token u : String) :
    me_request edx_url access_token ≠ course_request edx_url access_token u := by
  intro h
  simp [me_request, course_request] at h

/-- In the pagination loop, identity lookups and course-list requests come in
pairs: their counts in the request trace are equal. -/
theorem course_ids_loop_counts (me : Response) (edx_url access_token u : String)
    (hme : resolve_username me = Except.ok u) :
    ∀ (pages : List Response) (np : Option Json),
      (course_ids_loop me edx_url access_token np pages).requests.count
          (me_request edx_url access_token)
        = (course_ids_loop me edx_url access_token np pages).requests.count
          (course_request edx_url access_token u) := by
  intro pages
  have hne := me_request_ne_course_request edx_url access_token u
  induction pages with
  | nil =>
    intro np
    rw [course_ids_loop.eq_def]
    by_cases hnp : truthy_opt np = true <;> simp [hnp]
  | cons page rest ih =>
    intro np
    rw [course_ids_loop.eq_def]
    by_cases hnp : truthy_opt np = true
    · simp only [hnp, if_true]
      have hreqs := @fetch_with_auth_requests _ page edx_url access_token _ hme
      split
      · rename_i e reqs heq
        have hr : reqs = [me_request edx_url access_token, course_request edx_url access_token u] := by
          rw [← hreqs, heq]
        rw [hr]
        simp [List.count_cons, hne, hne.symm]
      · rename_i response_data reqs heq
        have hr : reqs = [me_request edx_url access_token, course_request edx_url access_token u] := by
          rw [← hreqs, heq]
        split
        · rw [hr]
          simp [List.count_cons, hne, hne.symm]
        · rename_i pagination hpag
          split
          · rw [hr]
            simp [List.count_cons, hne, hne.symm]
          · rename_i results hres
            rw [hr]
            have htail := ih (pagination.getOpt "next")
            simp only [List.count_append, htail]
            simp [List.count_cons, hne, hne.symm]
    · simp only [eq_false_of_ne_true hnp, if_false]
      simp

/-- C4 counterexample: consuming the two available pages of the three-page
scenario issues the identity (whoami) request twice — once per page fetch —
not exactly once as the claim states. -/
theorem get_edx_course_ids_me_not_once :
    (get_edx_course_ids edx_net_three "https://lms.example.com" "tok").requests.count
        (me_request "https://lms.example.com" "tok") = 2
    ∧ ¬ ((get_edx_course_ids edx_net_three "https://lms.example.com" "tok").requests.count
        (me_request "https://lms.example.com" "tok") = 1) := by
  decide

/-- C4 amended: each page fetch performs its own identity-endpoint lookup, so
in any full consumption (with a working identity endpoint) the number of
whoami requests equals the number of course-list page requests rather than
being one per session. -/
theorem get_edx_course_ids_me_per_page (net : EdxNet) (edx_url access_token u : String)
    (hme : resolve_username net.me_response = Except.ok u) :
    (get_edx_course_ids net edx_url access_token).requests.count
        (me_request edx_url access_token)
      = (get_edx_course_ids net edx_url access_token).requests.count
        (course_request edx_url access_token u) := by
  have hne := me_request_ne_course_request edx_url access_token u
  unfold get_edx_course_ids
  split
  · rfl
  · rename_i page rest hcr
    have hreqs := @fetch_with_auth_requests _ page edx_url access_token _ hme
    split
    · rename_i e reqs heq
      have hr : reqs = [me_request edx_url access_token, course_request edx_url access_token u] := by
        rw [← hreqs, heq]
      rw [hr]
      simp [List.count_cons, hne, hne.symm]
    · rename_i response_data reqs heq
      have hr : reqs = [me_request edx_url access_token, course_request edx_url access_token u] := by
        rw [← hreqs, heq]
      split
      · rw [hr]
        simp [List.count_cons, hne, hne.symm]
      · split
        · rw [hr]
          simp [List.count_cons, hne, hne.symm]
        · rename_i pagination hpag
          rw [hr]
          have htail := course_ids_loop_counts net.me_response edx_url access_token u hme rest
            (pagination.getOpt "next")
          simp only [List.count_append, htail]
          simp [List.count_cons, hne, hne.symm]

/-- Row projection preserves the row count: the number of rows read under the
projected schema equals the table's row count. -/
theorem list_rows_length (t : BigQueryTable) (selected_fields : List SchemaField) :
    (list_rows t selected_fields).length = t.rows.length :=
  List.length_map _ _

/-- A dataset with a different identifier contributes no materialization for
this asset key and no write at this dataset's file path. -/
theorem process_dataset_other (db : BigQueryDB) (mm : Int) (folder : String)
    {d x : Dataset} (hne : x.dataset_id ≠ d.dataset_id) :
    mats_for d.dataset_id (process_dataset db mm folder x).1 = []
    ∧ writes_at (dataset_file_path folder d) (process_dataset db mm folder x).2 = [] := by
  unfold process_dataset
  split
  · exact ⟨rfl, rfl⟩
  · rename_i t ht
    split
    · constructor
      · simp [mats_for, Event.isMaterializationFor, hne]
      · have hp : ¬ (dataset_file_path folder x = dataset_file_path folder d) := by
          intro h
          exact hne (dataset_file_path_inj h)
        simp [writes_at, hp]
    · exact ⟨rfl, rfl⟩

/-- A dataset list containing no occurrence of this identifier contributes no
materialization for it and no write at its file path. -/
theorem download_loop_zero (db : BigQueryDB) (mm : Int) (folder : String) (d : Dataset) :
    ∀ l : List Dataset, l.countP (fun x => x.dataset_id == d.dataset_id) = 0 →
      mats_for d.dataset_id (download_loop db mm folder l).1 = []
      ∧ writes_at (dataset_file_path folder d) (download_loop db mm folder l).2 = [] := by
  intro l
  induction l with
  | nil => intro _; exact ⟨rfl, rfl⟩
  | cons x rest ih =>
    intro h
    rw [List.countP_cons] at h
    have hx : (x.dataset_id == d.dataset_id) = false := by
      by_cases hb : (x.dataset_id == d.dataset_id) = true
      · rw [hb, if_pos rfl] at h
        omega
      · simpa using hb
    have hrest : rest.countP (fun y => y.dataset_id == d.dataset_id) = 0 := by
      rw [hx] at h
      omega
    have hne : x.dataset_id ≠ d.dataset_id := by
      simpa using hx
    obtain ⟨h1, h2⟩ := process_dataset_other db mm folder hne
    obtain ⟨h3, h4⟩ := ih hrest
    constructor
    · show mats_for d.dataset_id
        ((process_dataset db mm folder x).1 ++ (download_loop db mm folder rest).1) = []
      unfold mats_for at h1 h3 ⊢
      rw [List.filter_append, h1, h3]
      rfl
    · show writes_at (dataset_file_path folder d)
        ((process_dataset db mm folder x).2 ++ (download_loop db mm folder rest).2) = []
      unfold writes_at at h2 h4 ⊢
      rw [List.filter_append, h2, h4]
      rfl

/-- The dataset whose table exists contributes, to its own asset key and file
path, exactly one materialization and one write when the table is strictly
newer than the boundary, and nothing otherwise. -/
theorem process_dataset_self (db : BigQueryDB) (mm : Int) (folder : String)
    (d : Dataset) (t : BigQueryTable)
    (ht : db.tables (table_name db.project d) = some t) :
    ((mm < t.modified) →
      mats_for d.dataset_id (process_dataset db mm folder d).1
        = [Event.materialization d.dataset_id (dataset_file_path folder d) t.rows.length]
      ∧ writes_at (dataset_file_path folder d) (process_dataset db mm folder d).2
        = [(dataset_file_path folder d, list_rows t (desired_schema t))])
    ∧ (¬ (mm < t.modified) →
      mats_for d.dataset_id (process_dataset db mm folder d).1 = []
      ∧ writes_at (dataset_file_path folder d) (process_dataset db mm folder d).2 = []) := by
  unfold process_dataset
  rw [ht]
  dsimp only
  constructor
  · intro hf
    rw [if_pos hf]
    constructor
    · simp [mats_for, Event.isMaterializationFor, list_rows_length]
    · simp [writes_at]
  · intro hs
    rw [if_neg hs]
    exact ⟨rfl, rfl⟩

/-- For a dataset occurring exactly once in the list whose table exists, the
whole loop contributes, to its asset key and file path, exactly one
materialization and one write when the table is fresh, and nothing when it is
stale. -/
theorem download_loop_unique (db : BigQueryDB) (mm : Int) (folder : String)
    (d : Dataset) (t : BigQueryTable)
    (ht : db.tables (table_name db.project d) = some t) :
    ∀ l : List Dataset, l.countP (fun x => x.dataset_id == d.dataset_id) = 1 →
      ((mm < t.modified) →
        mats_for d.dataset_id (download_loop db mm folder l).1
          = [Event.materialization d.dataset_id (dataset_file_path folder d) t.rows.length]
        ∧ writes_at (dataset_file_path folder d) (download_loop db mm folder l).2
          = [(dataset_file_path folder d, list_rows t (desired_schema t))])
      ∧ (¬ (mm < t.modified) →
        mats_for d.dataset_id (download_loop db mm folder l).1 = []
        ∧ writes_at (dataset_file_path folder d) (download_loop db mm folder l).2 = []) := by
  intro l
  induction l with
  | nil =>
    intro h
    simp at h
  | cons x rest ih =>
    intro h
    rw [List.countP_cons] at h
    by_cases hb : (x.dataset_id == d.dataset_id) = true
    · have hxd : x = d := by
        have hid : x.dataset_id = d.dataset_id := by
          simpa using hb
        cases x
        cases d
        simpa using hid
      have hrest : rest.countP (fun y => y.dataset_id == d.dataset_id) = 0 := by
        rw [hb, if_pos rfl] at h
        omega
      subst x
      obtain ⟨hz1, hz2⟩ := download_loop_zero db mm folder d rest hrest
      constructor
      · intro hf
        obtain ⟨hp1, hp2⟩ := (process_dataset_self db mm folder d t ht).1 hf
        constructor
        · show mats_for d.dataset_id
            ((process_dataset db mm folder d).1 ++ (download_loop db mm folder rest).1) = _
          unfold mats_for at hp1 hz1 ⊢
          rw [List.filter_append, hp1, hz1]
          rfl
        · show writes_at (dataset_file_path folder d)
            ((process_dataset db mm folder d).2 ++ (download_loop db mm folder rest).2) = _
          unfold writes_at at hp2 hz2 ⊢
          rw [List.filter_append, hp2, hz2]
          rfl
      · intro hs
        obtain ⟨hp1, hp2⟩ := (process_dataset_self db mm folder d t ht).2 hs
        constructor
        · show mats_for d.dataset_id
            ((process_dataset db mm folder d).1 ++ (download_loop db mm folder rest).1) = []
          unfold mats_for at hp1 hz1 ⊢
          rw [List.filter_append, hp1, hz1]
          rfl
        · show writes_at (dataset_file_path folder d)
            ((process_dataset db mm folder d).2 ++ (download_loop db mm folder rest).2) = []
          unfold writes_at at hp2 hz2 ⊢
          rw [List.filter_append, hp2, hz2]
          rfl
    · have hx : (x.dataset_id == d.dataset_id) = false := by
        simpa using hb
      have hrest : rest.countP (fun y => y.dataset_id == d.dataset_id) = 1 := by
        rw [hx] at h
        simpa using h
      have hne : x.dataset_id ≠ d.dataset_id := by
        simpa using hx
      obtain ⟨ho1, ho2⟩ := process_dataset_other db mm folder hne
      obtain ⟨IH1, IH2⟩ := ih hrest
      constructor
      · intro hf
        obtain ⟨ha, hw⟩ := IH1 hf
        constructor
        · show mats_for d.dataset_id
            ((process_dataset db mm folder x).1 ++ (download_loop db mm folder rest).1) = _
          unfold mats_for at ho1 ha ⊢
          rw [List.filter_append, ho1, ha]
          rfl
        · show writes_at (dataset_file_path folder d)
            ((process_dataset db mm folder x).2 ++ (download_loop db mm folder rest).2) = _
          unfold writes_at at ho2 hw ⊢
          rw [List.filter_append, ho2, hw]
          rfl
      · intro hs
        obtain ⟨ha, hw⟩ := IH2 hs
        constructor
        · show mats_for d.dataset_id
            ((process_dataset db mm folder x).1 ++ (download_loop db mm folder rest).1) = []
          unfold mats_for at ho1 ha ⊢
          rw [List.filter_append, ho1, ha]
          rfl
        · show writes_at (dataset_file_path folder d)
            ((process_dataset db mm folder x).2 ++ (download_loop db mm folder rest).2) = []
          unfold writes_at at ho2 hw ⊢
          rw [List.filter_append, ho2, hw]
          rfl

/-- C1: for a dataset (occurring once in the input list) whose user_info_combo
table exists: when the table's modified timestamp is strictly newer than now
minus last_modified_days, the run writes exactly one file at
join(output_folder, user_info_combo_<dataset_id>.parquet) and emits exactly
one materialization for that dataset whose row count equals the number of rows
read; when the timestamp is not newer than that boundary, no file is written
and no record is emitted for that dataset. -/
theorem download_user_data_freshness (db : BigQueryDB) (now last_modified_days : Int)
    (output_folder : String) (datasets : List Dataset) (d : Dataset) (t : BigQueryTable)
    (hcount : datasets.countP (fun x => x.dataset_id == d.dataset_id) = 1)
    (ht : db.tables (table_name db.project d) = some t) :
    ((now - last_modified_days < t.modified) →
      mats_for d.dataset_id
          (download_user_data db now last_modified_days output_folder datasets).events
        = [Event.materialization d.dataset_id (dataset_file_path output_folder d)
            t.rows.length]
      ∧ writes_at (dataset_file_path output_folder d)
          (download_user_data db now last_modified_days output_folder datasets).writes
        = [(dataset_file_path output_folder d, list_rows t (desired_schema t))]
      ∧ (list_rows t (desired_schema t)).length = t.rows.length)
    ∧ (¬ (now - last_modified_days < t.modified) →
      mats_for d.dataset_id
          (download_user_data db now last_modified_days output_folder datasets).events = []
      ∧ writes_at (dataset_file_path output_folder d)
          (download_user_data db now last_modified_days output_folder datasets).writes = []) := by
  have hloop := download_loop_unique db (now - last_modified_days) output_folder d t ht
    datasets hcount
  constructor
  · intro hf
    obtain ⟨h1, h2⟩ := hloop.1 hf
    refine ⟨?_, h2, list_rows_length t _⟩
    show mats_for d.dataset_id
      ((download_loop db (now - last_modified_days) output_folder datasets).1
        ++ [Event.output output_folder]) = _
    unfold mats_for at h1 ⊢
    rw [List.filter_append, h1]
    rfl
  · intro hs
    obtain ⟨h1, h2⟩ := hloop.2 hs
    refine ⟨?_, h2⟩
    show mats_for d.dataset_id
      ((download_loop db (now - last_modified_days) output_folder datasets).1
        ++ [Event.output output_folder]) = []
    unfold mats_for at h1 ⊢
    rw [List.filter_append, h1]
    rfl

/-- Skipping a dataset with no table changes nothing: the loop result over a
list equals the loop result over the list with every occurrence of that
dataset removed. -/
theorem download_loop_erase (db : BigQueryDB) (mm : Int) (folder : String)
    (D : Dataset) (hD : db.tables (table_name db.project D) = none) :
    ∀ l : List Dataset,
      download_loop db mm folder l = download_loop db mm folder (l.filter (fun x => !(x == D))) := by
  intro l
  induction l with
  | nil => rfl
  | cons x rest ih =>
    by_cases hx : (x == D) = true
    · have hxD : x = D := by
        simpa using hx
      have hproc : process_dataset db mm folder x = ([], []) := by
        rw [hxD]
        unfold process_dataset
        rw [hD]
      show ((process_dataset db mm folder x).1 ++ (download_loop db mm folder rest).1,
            (process_dataset db mm folder x).2 ++ (download_loop db mm folder rest).2)
          = download_loop db mm folder ((x :: rest).filter (fun y => !(y == D)))
      rw [hproc]
      have hfil : (x :: rest).filter (fun y => !(y == D))
          = rest.filter (fun y => !(y == D)) := by
        simp [List.filter_cons, hx]
      rw [hfil, ← ih]
      rfl
    · have hfil : (x :: rest).filter (fun y => !(y == D))
          = x :: rest.filter (fun y => !(y == D)) := by
        simp [List.filter_cons, hx]
      show ((process_dataset db mm folder x).1 ++ (download_loop db mm folder rest).1,
            (process_dataset db mm folder x).2 ++ (download_loop db mm folder rest).2)
          = download_loop db mm folder ((x :: rest).filter (fun y => !(y == D)))
      rw [hfil]
      show _ = ((process_dataset db mm folder x).1
            ++ (download_loop db mm folder (rest.filter (fun y => !(y == D)))).1,
          (process_dataset db mm folder x).2
            ++ (download_loop db mm folder (rest.filter (fun y => !(y == D)))).2)
      rw [← ih]

/-- C5: when the table lookup for a dataset D in the input list signals
not-found, the run silently skips D — the whole run result equals the run on
the input list with D removed, so every other dataset still gets its
materialization — the run completes (the embedding is a total function: the
NotFound branch is caught, not propagated), and the terminal Output carrying
the output folder is still the single non-materialization event yielded. -/
theorem download_user_data_skips_notfound (db : BigQueryDB) (now last_modified_days : Int)
    (output_folder : String) (datasets : List Dataset) (D : Dataset)
    (_hmem : D ∈ datasets)
    (hD : db.tables (table_name db.project D) = none) :
    download_user_data db now last_modified_days output_folder datasets
      = download_user_data db now last_modified_days output_folder
          (datasets.filter (fun x => !(x == D)))
    ∧ D ∉ datasets.filter (fun x => !(x == D))
    ∧ (download_user_data db now last_modified_days output_folder datasets).events.filter
        (fun e => !e.isMaterialization) = [Event.output output_folder] := by
  refine ⟨?_, ?_, (download_user_data_events_order db now last_modified_days
    output_folder datasets).1⟩
  · have hl := download_loop_erase db (now - last_modified_days) output_folder D hD datasets
    show RunResult.mk
        ((download_loop db (now - last_modified_days) output_folder datasets).1
          ++ [Event.output output_folder])
        (download_loop db (now - last_modified_days) output_folder datasets).2
      = RunResult.mk
        ((download_loop db (now - last_modified_days) output_folder
            (datasets.filter (fun x => !(x == D)))).1
          ++ [Event.output output_folder])
        (download_loop db (now - last_modified_days) output_folder
            (datasets.filter (fun x => !(x == D)))).2
    rw [hl]
  · intro hcontra
    have := (List.mem_filter.mp hcontra).2
    simp at this

/-- C1 witness: at the concrete warehouse, the fresh run2_latest table yields
exactly one materialization with row count 2 and one write of the projected
rows; at a later clock the same table is stale and yields nothing. -/
theorem download_user_data_freshness_witness :
    (mats_for "run2_latest" (download_user_data sample_db 130 50 "outputs" sample_datasets).events
      = [Event.materialization "run2_latest"
          (dataset_file_path "outputs" ⟨"run2_latest"⟩) sample_table.rows.length]
    ∧ writes_at (dataset_file_path "outputs" ⟨"run2_latest"⟩)
        (download_user_data sample_db 130 50 "outputs" sample_datasets).writes
      = [(dataset_file_path "outputs" ⟨"run2_latest"⟩,
          list_rows sample_table (desired_schema sample_table))])
    ∧ mats_for "run2_latest"
        (download_user_data sample_db 1000 50 "outputs" sample_datasets).events = [] := by
  have hf := download_user_data_freshness sample_db 130 50 "outputs" sample_datasets
    ⟨"run2_latest"⟩ sample_table (by decide) (by decide)
  have hs := download_user_data_freshness sample_db 1000 50 "outputs" sample_datasets
    ⟨"run2_latest"⟩ sample_table (by decide) (by decide)
  exact ⟨⟨(hf.1 (by decide)).1, (hf.1 (by decide)).2.1⟩, (hs.2 (by decide)).1⟩

/-- C2 witness: applying the amended pagination theorem to the concrete
three-page scenario: two yields, four requests, clean termination. -/
theorem get_edx_course_ids_stops_after_first_falsy_witness :
    get_edx_course_ids edx_net_three "https://lms.example.com" "tok"
      = ⟨[.arr [.str "course-v1:a"], .arr [.str "course-v1:b"]],
         [me_request "https://lms.example.com" "tok",
          course_request "https://lms.example.com" "tok" "staff",
          me_request "https://lms.example.com" "tok",
          course_request "https://lms.example.com" "tok" "staff"],
         none, false⟩ :=
  get_edx_course_ids_stops_after_first_falsy edx_net_three "https://lms.example.com" "tok"
    "staff"
    (page_response [.str "course-v1:a"] [("next", .str "X")])
    (page_response [.str "course-v1:b"] [])
    [page_response [.str "course-v1:c"] []]
    (.arr [.str "course-v1:a"]) (.obj [("next", .str "X")])
    (.arr [.str "course-v1:b"]) (.obj [])
    rfl rfl rfl rfl rfl rfl rfl rfl rfl rfl

/-- C3 witness: in the concrete three-page scenario every issued request is
the fixed identity request or the fixed course-list request. -/
theorem get_edx_course_ids_requests_fixed_witness :
    (get_edx_course_ids edx_net_three "https://lms.example.com" "tok").requests.all
      (fun req => req == me_request "https://lms.example.com" "tok"
        || req == course_request "https://lms.example.com" "tok" "staff") = true :=
  get_edx_course_ids_requests_fixed edx_net_three "https://lms.example.com" "tok" "staff" rfl

/-- C4 witness: in the concrete three-page scenario there are as many identity
lookups as course-list page requests. -/
theorem get_edx_course_ids_me_per_page_witness :
    (get_edx_course_ids edx_net_three "https://lms.example.com" "tok").requests.count
        (me_request "https://lms.example.com" "tok")
      = (get_edx_course_ids edx_net_three "https://lms.example.com" "tok").requests.count
        (course_request "https://lms.example.com" "tok" "staff") :=
  get_edx_course_ids_me_per_page edx_net_three "https://lms.example.com" "tok" "staff" rfl

/-- C6 witness: the 401 response raises the HTTP failure after the single
token request; the 200 response returns the access_token field. -/
theorem get_access_token_spec_witness :
    (get_access_token edx_net_unauthorized "client" "secret" "https://lms.example.com" "jwt").1
        = Except.error (ApiError.httpStatus 401)
    ∧ (get_access_token edx_net_unauthorized "client" "secret" "https://lms.example.com" "jwt").2
        = [token_request "https://lms.example.com" "client" "secret" "jwt"]
    ∧ (get_access_token edx_net_token_ok "client" "secret" "https://lms.example.com" "jwt").1
        = Except.ok (Json.str "tok") := by
  have h1 := (get_access_token_spec edx_net_unauthorized "client" "secret"
    "https://lms.example.com" "jwt").1 (by decide)
  have h2 := (get_access_token_spec edx_net_token_ok "client" "secret"
    "https://lms.example.com" "jwt").2 (Json.str "tok") (by decide) (by decide) rfl
  exact ⟨h1.1, h1.2, h2.1⟩

/-- C7 witness: applying the run's write log twice to the empty filesystem
equals applying it once. -/
theorem download_user_data_idempotent_witness :
    fs_apply (fs_apply (fun _ => none)
        (download_user_data sample_db 130 50 "outputs" sample_datasets).writes)
      (download_user_data sample_db 130 50 "outputs" sample_datasets).writes
      = fs_apply (fun _ => none)
        (download_user_data sample_db 130 50 "outputs" sample_datasets).writes :=
  download_user_data_idempotent sample_db 130 50 "outputs" sample_datasets (fun _ => none)

/-- C8 witness: the filter characterization instantiated at a concrete
listing and dataset, and a concrete listing failure propagating unchanged. -/
theorem get_datasets_spec_witness :
    get_datasets (Except.ok [⟨"run1_latest"⟩, ⟨"other"⟩, (⟨"run2_latest"⟩ : Dataset)])
      = Except.ok ([⟨"run1_latest"⟩, ⟨"other"⟩, (⟨"run2_latest"⟩ : Dataset)].filter
          (fun dataset => dataset.dataset_id.endsWith "_latest"))
    ∧ ((⟨"run1_latest"⟩ : Dataset) ∈ [⟨"run1_latest"⟩, ⟨"other"⟩,
          (⟨"run2_latest"⟩ : Dataset)].filter
          (fun dataset => dataset.dataset_id.endsWith "_latest") ↔
        (⟨"run1_latest"⟩ : Dataset) ∈ [⟨"run1_latest"⟩, ⟨"other"⟩, (⟨"run2_latest"⟩ : Dataset)]
          ∧ "run1_latest".endsWith "_latest" = true)
    ∧ get_datasets (Except.error "boom") = Except.error "boom" := by
  have h := get_datasets_spec
  exact ⟨(h.1 [⟨"run1_latest"⟩, ⟨"other"⟩, ⟨"run2_latest"⟩]).1,
    (h.1 [⟨"run1_latest"⟩, ⟨"other"⟩, ⟨"run2_latest"⟩]).2.1 ⟨"run1_latest"⟩,
    h.2 "boom"⟩

/-- C9 witness: the membership characterization of the projection evaluated at
a concrete column of the concrete table. -/
theorem desired_schema_spec_witness :
    ((⟨"user_id"⟩ : SchemaField) ∈ desired_schema sample_table ↔
      (⟨"user_id"⟩ : SchemaField) ∈ sample_table.schema ∧ "user_id" ∈ fields) :=
  (desired_schema_spec sample_table).1 ⟨"user_id"⟩

/-- C10 witness: on the concrete run, the only non-materialization event is
the single terminal Output carrying the output folder. -/
theorem download_user_data_events_order_witness :
    (download_user_data sample_db 130 50 "outputs" sample_datasets).events.filter
        (fun e => !e.isMaterialization) = [Event.output "outputs"] :=
  (download_user_data_events_order sample_db 130 50 "outputs" sample_datasets).1

/-- C5 witness: at the concrete warehouse, run1_latest has no table; the run
equals the run without it and still ends with the single terminal Output. -/
theorem download_user_data_skips_notfound_witness :
    download_user_data sample_db 130 50 "outputs" sample_datasets
      = download_user_data sample_db 130 50 "outputs"
          (sample_datasets.filter (fun x => !(x == (⟨"run1_latest"⟩ : Dataset))))
    ∧ (⟨"run1_latest"⟩ : Dataset) ∉ sample_datasets.filter
        (fun x => !(x == (⟨"run1_latest"⟩ : Dataset)))
    ∧ (download_user_data sample_db 130 50 "outputs" sample_datasets).events.filter
        (fun e => !e.isMaterialization) = [Event.output "outputs"] :=
  download_user_data_skips_notfound sample_db 130 50 "outputs" sample_datasets
    ⟨"run1_latest"⟩ (by decide) (by decide)
